import Mathlib

/-
Shallow embedding of the happiestbaby-api client library
(files api.py, request.py, journal.py, const.py) and proofs about it.

Conventions of the embedding:
  - timestamps are integers (seconds); datetime.now(UTC) becomes an explicit
    argument of each function that reads the clock;
  - the network is an oracle argument: a value, or a function from the attempt
    number to the delivered outcome, describing what the remote side answers;
  - Python exceptions become an Except value; the error classes of errors.py
    (RequestError, AuthenticationError, InvalidCredentialsError, ValueError)
    become constructors carrying their message;
  - every function returns, besides its value and the mutated state, a trace of
    the network operations it performed, so that statements such as
    "no network call is attempted" are equalities about the trace;
  - the cooperative asyncio model: code between two awaits is atomic.  The
    sequential embedding below runs one caller at a time; the two-caller
    interleaving semantics needed by the concurrency claim is a separate
    explicit state machine (RaceConfig further down).
-/

/-! ## Transport layer: request.py, SnooRequest._send_request -/

/-- What the network delivers for one attempt: a response, an HTTP error
status (aiohttp ClientResponseError), or a network error (aiohttp
ClientError).  Responses are abstracted to a natural number. -/
inductive NetResult where
  | ok (v : Nat)
  | httpErr (status : Nat) (msg : String)
  | netErr (msg : String)
deriving DecidableEq

/-- The exception captured by the retry loop of _send_request. -/
inductive TransportExc where
  | http (status : Nat) (msg : String)
  | net (msg : String)
  | requestError (msg : String)
deriving DecidableEq

/-- Outcome of _send_request: the returned response or the raised exception,
together with the list of backoff waits (seconds) performed between attempts
and the number of attempts that were made. -/
structure SendResult where
  outcome : Except TransportExc Nat
  waits : List Nat
  attempts : Nat

def DEFAULT_REQUEST_RETRIES : Nat := 5

/-- The retry loop of SnooRequest._send_request.  rem is the number of loop
iterations still allowed (the code tests attempt < DEFAULT_REQUEST_RETRIES;
rem = DEFAULT_REQUEST_RETRIES - attempt).  attempt counts completed attempts,
respExc is the last captured exception, waits the sleeps done so far.
Mirrors request.py lines 37-88: before every attempt but the first the loop
sleeps min(2 ^ attempt, 5) seconds; a 401 ClientResponseError is re-raised
immediately; other ClientResponseError and ClientError are captured and the
loop continues; when the loop exhausts, the captured exception is re-raised,
or a RequestError "All request attempts failed" when none was captured. -/
def send_request_aux (oracle : Nat → NetResult) :
    Nat → Nat → Option TransportExc → List Nat → SendResult
  | 0, attempt, respExc, waits =>
    match respExc with
    | some e => ⟨.error e, waits, attempt⟩
    | none => ⟨.error (.requestError "All request attempts failed"), waits, attempt⟩
  | rem + 1, attempt, _respExc, waits =>
    let waits := if attempt ≠ 0 then waits ++ [min (2 ^ attempt) 5] else waits
    match oracle (attempt + 1) with
    | .ok v => ⟨.ok v, waits, attempt + 1⟩
    | .httpErr s m =>
      if s = 401 then ⟨.error (.http s m), waits, attempt + 1⟩
      else send_request_aux oracle rem (attempt + 1) (some (.http s m)) waits
    | .netErr m => send_request_aux oracle rem (attempt + 1) (some (.net m)) waits

/-- SnooRequest._send_request: run the retry loop from a fresh state with the
attempt bound DEFAULT_REQUEST_RETRIES. -/
def send_request (oracle : Nat → NetResult) : SendResult :=
  send_request_aux oracle DEFAULT_REQUEST_RETRIES 0 none []

/-- A delivered outcome on which the loop retries: a network error, or an
HTTP error other than 401. -/
def retryable : NetResult → Bool
  | .ok _ => false
  | .httpErr s _ => s ≠ 401
  | .netErr _ => true

/-- The exception the loop captures for a failed attempt. -/
def capturedExc : NetResult → Option TransportExc
  | .ok _ => none
  | .httpErr s m => some (.http s m)
  | .netErr m => some (.net m)

/-! ## Journal client: journal.py -/

/-- JSON-ish values, enough to express journal payloads. -/
inductive JVal where
  | str (s : String)
  | num (q : ℚ)
  | arr (l : List JVal)
  | obj (l : List (String × JVal))
  | nul
  | bool (b : Bool)

/-- A network operation issued by the journal client. -/
inductive JournalOp where
  | put (entryId : String) (body : List (String × JVal))
  | post (body : List (String × JVal))

/-- An error raised by the journal client before or instead of a request. -/
inductive JournalErr where
  | valueError (msg : String)
deriving DecidableEq

/-- The required_fields list of JournalManager.update_journal_entry
(journal.py line 425). -/
def required_fields : List String := ["type", "startTime", "babyId", "userId", "data"]

/-- Membership test for a field in the updates payload (Python: field in updates). -/
def hasField (updates : List (String × JVal)) (f : String) : Bool :=
  (updates.map Prod.fst).contains f

/-- is_complete of update_journal_entry: all required fields present. -/
def is_complete (updates : List (String × JVal)) : Bool :=
  required_fields.all (hasField updates)

/-- JournalManager.update_journal_entry (journal.py lines 404-447): when the
payload carries all required fields it is sent unchanged as the PUT body;
otherwise a ValueError is raised before any request.  The oracle gives the
response of the PUT. -/
def update_journal_entry (entry_id : String) (updates : List (String × JVal))
    (oracle : Option JVal) : Except JournalErr (Option JVal) × List JournalOp :=
  if is_complete updates then
    (.ok oracle, [.put entry_id updates])
  else
    (.error (.valueError
      "Partial updates not supported yet. Please provide a complete journal entry object"),
     [])

/-- round(x, 2) of Python, idealized over the rationals with the half-up
rounding of Mathlib.  Python rounds exact halves to even, but the tie
behaviour is immaterial for the stated properties: the exact round trip
below holds for every tie convention, and the concrete evaluations hit no
ties. -/
def round2 (q : ℚ) : ℚ := (round (q * 100) : ℚ) / 100

/-- journal.py line 311: amount_metric = round(amount_imperial * 29.5735, 2). -/
def amountMetricOfImperial (oz : ℚ) : ℚ := round2 (oz * 29.5735)

/-- journal.py line 313: amount_imperial = round(amount_metric / 29.5735, 2). -/
def amountImperialOfMetric (ml : ℚ) : ℚ := round2 (ml / 29.5735)

/-- journal.py line 376: weight_metric = round(weight_imperial * 28.3495, 2). -/
def weightMetricOfImperial (oz : ℚ) : ℚ := round2 (oz * 28.3495)

/-- journal.py line 378: weight_imperial = round(weight_metric / 28.3495, 2). -/
def weightImperialOfMetric (g : ℚ) : ℚ := round2 (g / 28.3495)

/-- journal.py line 498: height_metric = round(height_imperial * 2.54, 2). -/
def heightMetricOfImperial (inch : ℚ) : ℚ := round2 (inch * 2.54)

/-- journal.py line 500: height_imperial = round(height_metric / 2.54, 2). -/
def heightImperialOfMetric (cm : ℚ) : ℚ := round2 (cm / 2.54)

/-! ## Credential manager and request gateway: api.py

The sequential embedding: one caller at a time (the code funnels every request
through a single asyncio.Lock, so the body of API.request runs without
interference).  A background task created with wait=False is represented by
the result it will have produced by the time it is next observed: in the
cooperative model the task runs during the awaits that separate its creation
from the next harvest. -/

/-- errors.py: the three error classes used by api.py, with their message. -/
inductive SnooError where
  | requestError (msg : String)
  | authenticationError (msg : String)
  | invalidCredentialsError (msg : String)
deriving DecidableEq

/-- The message carried by an error (str(err) in Python). -/
def SnooError.message : SnooError → String
  | .requestError m => m
  | .authenticationError m => m
  | .invalidCredentialsError m => m

/-- api.py line 55: the _security_token 4-tuple
(token, refresh token, expiry, last refresh). -/
structure SecurityToken where
  token : Option String
  refreshToken : Option String
  expiresAt : Option Int
  lastRefresh : Option Int
deriving DecidableEq

deriving instance DecidableEq for Except

/-- The mutable fields of the API object touched by the credential manager and
the request gateway (api.py lines 49-60).  authentication_task holds the result
the in-flight task produces (None when no task exists). -/
structure ApiState where
  username : Option String
  password : Option String
  invalid_credentials : Bool
  authentication_task : Option (Except SnooError Unit)
  security_token : SecurityToken
deriving DecidableEq

/-- API.__init__ (api.py lines 45-66): credentials stored, flag false, no
task, empty security token. -/
def API.init (username password : String) : ApiState :=
  { username := some username
    password := some password
    invalid_credentials := false
    authentication_task := none
    security_token := ⟨none, none, none, none⟩ }

/-- The username setter (api.py lines 72-75): resets the invalid flag. -/
def API.setUsername (st : ApiState) (u : String) : ApiState :=
  { st with invalid_credentials := false, username := some u }

/-- The password setter (api.py lines 81-84): resets the invalid flag. -/
def API.setPassword (st : ApiState) (p : String) : ApiState :=
  { st with invalid_credentials := false, password := some p }

def DEFAULT_TOKEN_REFRESH : Nat := 3600

/-- A network event of the credential manager / request gateway.  dispatch
records the Authorization header value sent with the request. -/
inductive ApiEvent where
  | dispatch (authHeader : Option String)
  | cognitoCall
  | refreshCall
deriving DecidableEq

/-- The Cognito InitiateAuth response as _api_authenticate reads it:
HTTP status, presence of the AuthenticationResult envelope, and the fields
extracted from it. -/
structure CognitoResponse where
  status : Nat
  hasAuthenticationResult : Bool
  idToken : Option String
  refreshToken : Option String
  expiresIn : Option Nat
  tokenType : Option String

/-- API._api_authenticate (api.py lines 244-306): checks the HTTP status, the
AuthenticationResult envelope and the IdToken; returns the composed token
string "tokenType idToken", the refresh token, and ExpiresIn (default
DEFAULT_TOKEN_REFRESH when absent). -/
def api_authenticate (c : CognitoResponse) :
    Except SnooError (String × Option String × Nat) :=
  if c.status ≠ 200 then
    .error (.requestError "Cognito authentication failed")
  else if ¬ c.hasAuthenticationResult then
    .error (.authenticationError "No AuthenticationResult in Cognito response")
  else
    match c.idToken with
    | none => .error (.authenticationError "No ID token received from Cognito")
    | some tid =>
      let expires := c.expiresIn.getD DEFAULT_TOKEN_REFRESH
      let tokenType := c.tokenType.getD "Bearer"
      .ok (tokenType ++ " " ++ tid, c.refreshToken, expires)

/-- The refresh endpoint response body as _refresh_token reads it.
expiresUnparseable models the ValueError branch: expires_in present but not
an integer. -/
structure RefreshResponse where
  token_type : Option String
  access_token : Option String
  refresh_token : Option String
  expires_in : Option Nat
  expiresUnparseable : Bool

/-- str() of an optional string the way a Python f-string prints it. -/
def optStr : Option String → String
  | some s => s
  | none => "None"

/-- API._refresh_token (api.py lines 334-376): posts the stored refresh token
(through the request gateway with login_request=True, which dispatches
directly and wraps failures as RequestError — the Except argument), then
composes "token_type access_token", reads the refresh token, parses
expires_in (default DEFAULT_TOKEN_REFRESH; ValueError and any value below
2 * DEFAULT_TOKEN_REFRESH are replaced by 2 * DEFAULT_TOKEN_REFRESH). -/
def refresh_token_exchange (net : Except SnooError RefreshResponse) :
    Except SnooError (String × Option String × Nat) :=
  match net with
  | .error e => .error e
  | .ok r =>
    let token := optStr r.token_type ++ " " ++ optStr r.access_token
    let expires :=
      if r.expiresUnparseable then DEFAULT_TOKEN_REFRESH * 2
      else r.expires_in.getD DEFAULT_TOKEN_REFRESH
    let expires := if expires < DEFAULT_TOKEN_REFRESH * 2 then DEFAULT_TOKEN_REFRESH * 2
                   else expires
    .ok (token, r.refresh_token, expires)

/-- The guard of api.py line 312: the stored expiry exists and is in the
past. -/
def tokenExpired (tok : SecurityToken) (now : Int) : Bool :=
  match tok.expiresAt with
  | some e => e < now
  | none => false

/-- API._authenticate (api.py lines 308-332).  When the stored expiry has
passed, it performs the refresh exchange and RETURNS WITHOUT STORING the
result (the bare return of line 315); otherwise it performs the fresh Cognito
login and stores the token wholesale with expiry now + expires / 2 (integer
division) and last refresh now. -/
def API.auth_inner (st : ApiState) (now : Int) (cog : CognitoResponse)
    (refresh : Except SnooError RefreshResponse) :
    Except SnooError ApiState × List ApiEvent :=
  if tokenExpired st.security_token now then
    match refresh_token_exchange refresh with
    | .error e => (.error e, [.refreshCall])
    | .ok _ => (.ok st, [.refreshCall])
  else
    match api_authenticate cog with
    | .error e => (.error e, [.cognitoCall])
    | .ok (token, refreshToken, expires) =>
      (.ok { st with security_token :=
               ⟨some token, refreshToken, some (now + (expires / 2 : Nat)),
                some now⟩ },
       [.cognitoCall])

/-- api.py line 381: the message of the missing-credentials branch. -/
def noCredsMsg : String :=
  "No username/password, most likely due to previous failed authentication."

/-- api.py line 386: the message of the invalid-credentials branch. -/
def invalidCredsMsg : String :=
  "Credentials are invalid, update username/password to re-try authentication."

/-- API.authenticate (api.py lines 378-409).  Checks the credentials and the
invalid flag; creates the authentication task when none exists (its result is
the run of API.auth_inner); with wait=True awaits the task, clears the slot
and wraps RequestError/AuthenticationError results as AuthenticationError;
with wait=False leaves the task in the slot. -/
def API.authenticate (wait : Bool) (st : ApiState) (now : Int)
    (cog : CognitoResponse) (refresh : Except SnooError RefreshResponse) :
    Except SnooError Unit × ApiState × List ApiEvent :=
  if st.username = none ∨ st.password = none then
    (.error (.invalidCredentialsError noCredsMsg), st, [])
  else if st.invalid_credentials then
    (.error (.invalidCredentialsError invalidCredsMsg), st, [])
  else
    let created :=
      match st.authentication_task with
      | some r => (r, st, ([] : List ApiEvent))
      | none =>
        match API.auth_inner st now cog refresh with
        | (.ok st1, tr) =>
          (Except.ok (), { st1 with authentication_task := some (.ok ()) }, tr)
        | (.error e, tr) =>
          (Except.error e, { st with authentication_task := some (.error e) }, tr)
    match created with
    | (taskRes, st1, tr) =>
      if wait then
        match taskRes with
        | .ok _ => (.ok (), { st1 with authentication_task := none }, tr)
        | .error e =>
          (.error (.authenticationError e.message),
           { st1 with authentication_task := none }, tr)
      else (.ok (), st1, tr)

/-- api.py lines 200 and 233: on a 401 the token fields are nulled and the
last-refresh timestamp (element 3 of the tuple) is retained. -/
def clearTokens (st : ApiState) : ApiState :=
  { st with security_token :=
      ⟨none, none, none, st.security_token.lastRefresh⟩ }

/-- The guard of api.py lines 156-159: expiry unset or already passed. -/
def expiryReached (tok : SecurityToken) (now : Int) : Bool :=
  match tok.expiresAt with
  | some e => e ≤ now
  | none => true

/-- The RequestError message for a ClientResponseError (url elided). -/
def httpErrorMessage (s : Nat) (m : String) : String :=
  "Error requesting data: " ++ toString s ++ " - " ++ m

/-- The RequestError message for a ClientError (url elided). -/
def netErrorMessage (m : String) : String :=
  "Error requesting data: " ++ m

/-- api.py lines 169 and 207: the wrapper put around a failed blocking
re-authentication. -/
def reAuthMessage (m : String) : String :=
  "Error trying to re-authenticate to snoo service: " ++ m

/-- API.request (api.py lines 86-242), the authenticated path
(login_request=False), inside the critical section of the lock.  d1 is what
the network delivers for the first dispatch, d2 for the retry dispatch (when
one happens).  Phases, in the order of the code:
  - lines 139-153: a completed background authentication task is harvested
    (slot cleared, RequestError/AuthenticationError results swallowed);
  - lines 156-175: when the expiry is unset or passed: with no token at all a
    blocking authenticate runs (failure wrapped as AuthenticationError); with
    a token still present a background authenticate is scheduled;
  - line 180: the Authorization header is set, once, from the current token;
  - lines 186-224: the first dispatch; a 401 clears the token fields, runs a
    blocking re-authentication and retries exactly once — with the headers
    dict built at line 180, whose Authorization value is unchanged;
  - lines 226-242: every other ClientResponseError and ClientError of either
    dispatch becomes a RequestError; a 401 of the retry clears the token
    fields again, schedules a background authenticate and raises an
    AuthenticationError. -/
def API.request (st0 : ApiState) (now : Int) (cog : CognitoResponse)
    (refresh : Except SnooError RefreshResponse) (d1 d2 : NetResult) :
    Except SnooError Nat × ApiState × List ApiEvent :=
  let harvested : Except SnooError Unit × ApiState × List ApiEvent :=
    match st0.authentication_task with
    | none => (.ok (), st0, [])
    | some _ =>
      match API.authenticate false st0 now cog refresh with
      | (.error e, st1, tr) => (.error e, st1, tr)
      | (.ok _, st1, tr) => (.ok (), { st1 with authentication_task := none }, tr)
  match harvested with
  | (.error e, st1, tr1) => (.error e, st1, tr1)
  | (.ok _, st1, tr1) =>
    let ensured : Except SnooError Unit × ApiState × List ApiEvent :=
      if expiryReached st1.security_token now then
        if st1.security_token.token = none then
          match API.authenticate true st1 now cog refresh with
          | (.error (.authenticationError m), st2, tr2) =>
            (.error (.authenticationError (reAuthMessage m)), st2, tr2)
          | (.error e, st2, tr2) => (.error e, st2, tr2)
          | (.ok _, st2, tr2) => (.ok (), st2, tr2)
        else
          match API.authenticate false st1 now cog refresh with
          | (.error e, st2, tr2) => (.error e, st2, tr2)
          | (.ok _, st2, tr2) => (.ok (), st2, tr2)
      else (.ok (), st1, [])
    match ensured with
    | (.error e, st2, tr2) => (.error e, st2, tr1 ++ tr2)
    | (.ok _, st2, tr2) =>
      let authHeader := st2.security_token.token
      match d1 with
      | .ok v => (.ok v, st2, tr1 ++ tr2 ++ [.dispatch authHeader])
      | .netErr m =>
        (.error (.requestError (netErrorMessage m)), st2,
         tr1 ++ tr2 ++ [.dispatch authHeader])
      | .httpErr s m =>
        if s = 401 then
          let st3 := clearTokens st2
          match API.authenticate true st3 now cog refresh with
          | (.error (.authenticationError m2), st4, tr4) =>
            (.error (.authenticationError (reAuthMessage m2)), st4,
             tr1 ++ tr2 ++ [.dispatch authHeader] ++ tr4)
          | (.error e, st4, tr4) =>
            (.error e, st4, tr1 ++ tr2 ++ [.dispatch authHeader] ++ tr4)
          | (.ok _, st4, tr4) =>
            match d2 with
            | .ok v =>
              (.ok v, st4,
               tr1 ++ tr2 ++ [.dispatch authHeader] ++ tr4 ++ [.dispatch authHeader])
            | .netErr m2 =>
              (.error (.requestError (netErrorMessage m2)), st4,
               tr1 ++ tr2 ++ [.dispatch authHeader] ++ tr4 ++ [.dispatch authHeader])
            | .httpErr s2 m2 =>
              if s2 = 401 then
                let st5 := clearTokens st4
                match API.authenticate false st5 now cog refresh with
                | (.error e, st6, tr6) =>
                  (.error e, st6,
                   tr1 ++ tr2 ++ [.dispatch authHeader] ++ tr4
                     ++ [.dispatch authHeader] ++ tr6)
                | (.ok _, st6, tr6) =>
                  (.error (.authenticationError (httpErrorMessage s2 m2)), st6,
                   tr1 ++ tr2 ++ [.dispatch authHeader] ++ tr4
                     ++ [.dispatch authHeader] ++ tr6)
              else
                (.error (.requestError (httpErrorMessage s2 m2)), st4,
                 tr1 ++ tr2 ++ [.dispatch authHeader] ++ tr4 ++ [.dispatch authHeader])
        else
          (.error (.requestError (httpErrorMessage s m)), st2,
           tr1 ++ tr2 ++ [.dispatch authHeader])

/-! ## Writes to the invalid-credentials flag (api.py, whole file)

The only assignments to _invalid_credentials in the source are the
initializer (line 52, False) and the username/password setters (lines 74 and
83, False).  Every other operation of the API leaves the flag alone.  ApiOp
enumerates the mutations by their effect on the flag. -/

/-- One mutation of the API object, classified by its effect on the
_invalid_credentials flag: the two setters write False; every other state
mutation in api.py (token updates, task slot updates, device updates) does
not mention the flag. -/
inductive ApiOp where
  | setUsername (u : String)
  | setPassword (p : String)
  | otherMutation

/-- The effect of one mutation on the flag, read off the source: setters
assign False (api.py lines 74 and 83), everything else leaves it
unchanged. -/
def applyInvalidFlag : Bool → ApiOp → Bool
  | _, .setUsername _ => false
  | _, .setPassword _ => false
  | b, .otherMutation => b

/-- The flag after a sequence of mutations, starting from the initializer
value False (api.py line 52). -/
def invalidFlagAfter (ops : List ApiOp) : Bool :=
  ops.foldl applyInvalidFlag false

/-! ## Two concurrent callers: the interleaving model for the duplicate-login
race

A small-step semantics for two coroutines that both run API.request while no
token exists, plus the single authentication task.  Cooperative scheduling:
everything between two awaits is one atomic step.  The await points of the
code are: acquiring the lock (lines 136 and the synchronous block down to the
task creation of line 395), awaiting the authentication task (line 401),
and the dispatch (line 187).  The authentication task itself is one step
(its completion stores the fresh credential, line 327, whose expiry
now + expires/2 lies in the future for any realistic ExpiresIn, so the model
sets hasToken).  Program counters: 0 = before the lock, 2 = awaiting the
authentication task, 3 = dispatch in flight, 4 = done (lock released). -/

/-- Shared state and the two program counters.  slot is whether
_authentication_task is non-None, taskDone whether that task has completed,
hasToken whether _security_token[0] is set (with a future expiry),
authCalls how many authentication network calls were made. -/
structure RaceConfig where
  lock : Option (Fin 2)
  slot : Bool
  taskDone : Bool
  hasToken : Bool
  authCalls : Nat
  pcA : Fin 5
  pcB : Fin 5
deriving DecidableEq

/-- Initial configuration: lock free, no task, no token (api.py line 55),
both callers about to enter API.request. -/
def raceInit : RaceConfig :=
  ⟨none, false, false, false, 0, 0, 0⟩

/-- The atomic step of a caller that acquires the lock: the synchronous block
of API.request lines 136-167 and, inside authenticate, lines 380-397 — up
to the first await.  Harvest a done task (line 145), then: with a token
(whose expiry is in the future) skip authentication and start the dispatch
(pc 3); with no token, attach to the existing task or create one
(line 395), then await it (pc 2). -/
def acquireStep (i : Fin 2) (c : RaceConfig) : RaceConfig :=
  let slot1 := if c.slot && c.taskDone then false else c.slot
  let done1 := if c.slot && c.taskDone then false else c.taskDone
  if c.hasToken then
    { c with lock := some i, slot := slot1, taskDone := done1,
             pcA := if i = 0 then 3 else c.pcA,
             pcB := if i = 1 then 3 else c.pcB }
  else
    { c with lock := some i, slot := true,
             taskDone := slot1 && done1,
             pcA := if i = 0 then 2 else c.pcA,
             pcB := if i = 1 then 2 else c.pcB }

/-- The pc of caller i. -/
def RaceConfig.pc (c : RaceConfig) (i : Fin 2) : Fin 5 :=
  if i = 0 then c.pcA else c.pcB

/-- Set the pc of caller i. -/
def RaceConfig.setPc (c : RaceConfig) (i : Fin 2) (p : Fin 5) : RaceConfig :=
  if i = 0 then { c with pcA := p } else { c with pcB := p }

/-- The enabled steps of caller i, as the list of configurations they lead
to.  pc 0 requires the lock to be free; pc 2 (awaiting the task, line 401)
requires the task to be done and then clears the slot (line 407); pc 3
finishes the dispatch and releases the lock. -/
def callerSteps (i : Fin 2) (c : RaceConfig) : List RaceConfig :=
  if c.pc i = 0 then
    if c.lock = none then [acquireStep i c] else []
  else if c.pc i = 2 then
    if c.taskDone then
      [{ (c.setPc i 3) with slot := false, taskDone := false }]
    else []
  else if c.pc i = 3 then
    [{ (c.setPc i 4) with lock := none }]
  else []

/-- The authentication task runs: one Cognito network call, then the fresh
credential is stored (api.py line 327). -/
def taskSteps (c : RaceConfig) : List RaceConfig :=
  if c.slot && !c.taskDone then
    [{ c with taskDone := true, hasToken := true, authCalls := c.authCalls + 1 }]
  else []

/-- All successor configurations. -/
def raceSuccs (c : RaceConfig) : List RaceConfig :=
  callerSteps 0 c ++ callerSteps 1 c ++ taskSteps c

/-- Reachability from the initial configuration. -/
inductive RaceReachable : RaceConfig → Prop where
  | init : RaceReachable raceInit
  | step {c c1 : RaceConfig} : RaceReachable c → c1 ∈ raceSuccs c → RaceReachable c1

/-- One breadth-first expansion of a configuration list. -/
def raceExpand (l : List RaceConfig) : List RaceConfig :=
  (l ++ l.flatMap raceSuccs).dedup

/-- n expansions from the initial configuration. -/
def raceReachList : Nat → List RaceConfig
  | 0 => [raceInit]
  | n + 1 => raceExpand (raceReachList n)

/-- A list of configurations large enough to be closed under raceSuccs
(checked by a decidable lemma below). -/
def raceClosure : List RaceConfig := raceReachList 10

/-! ## Device registry: api.py, update_device_info / _get_device_details -/

/-- One element of the device-list response, as _get_device_details reads it:
the optional serial number and the rest of the blob (abstracted). -/
structure DeviceJson where
  serialNumber : Option String
  blob : Nat
deriving DecidableEq

/-- device.py is not in the sources; SnooDevice here keeps only the fields
api.py assigns: the device json, the config blob, the session blob and the
per-cycle update timestamp. -/
structure SnooDevice where
  device : Option DeviceJson
  config : Option Nat
  session : Option Nat
  device_state_update : Option Int
deriving DecidableEq

/-- The registry fields of the API object (api.py lines 62-65): the account
and baby blobs, the device map (an association list keyed by serial number,
insertion-ordered like a Python dict) and the throttle timestamp. -/
structure RegistryState where
  account : Option Nat
  baby : Option Nat
  devices : List (String × SnooDevice)
  last_state_update : Option Int
deriving DecidableEq

/-- A network fetch performed by the registry. -/
inductive RegistryOp where
  | accountFetch
  | babyFetch
  | deviceListFetch
  | configFetch (serial : String)
  | sessionFetch
deriving DecidableEq

/-- What the network answers during a registry refresh: the account blob, the
baby blob, the device-list response, the per-device config blobs and the
account-level last-session blob. -/
structure RegistryOracle where
  account : Option Nat
  baby : Option Nat
  devicesResp : Option (List DeviceJson)
  configFor : String → Option Nat
  session : Option Nat

/-- DEFAULT_DEVICE_UPDATE_INTERVAL (api.py line 37), in seconds. -/
def DEFAULT_DEVICE_UPDATE_INTERVAL : Int := 120

/-- Replace the binding of key k (the in-place update of a dict entry). -/
def updateAssoc (l : List (String × SnooDevice)) (k : String) (v : SnooDevice) :
    List (String × SnooDevice) :=
  l.map (fun kv => if kv.1 = k then (k, v) else kv)

/-- The body of the device loop of API._get_device_details (api.py lines
459-492) for one device entry: a device without serial number is skipped; an
unseen serial number is added (API._add_new_device, lines 498-513); then the
device config and the account session are fetched and assigned together with
the device json and the per-cycle timestamp. -/
def deviceLoopBody (oracle : RegistryOracle) (now : Int)
    (acc : List (String × SnooDevice) × List RegistryOp) (dj : DeviceJson) :
    List (String × SnooDevice) × List RegistryOp :=
  match dj.serialNumber with
  | none => acc
  | some sn =>
    let devices := acc.1
    let devices :=
      if (devices.map Prod.fst).contains sn then devices
      else devices ++ [(sn, ⟨some dj, none, none, none⟩)]
    let cfg := oracle.configFor sn
    let ses := oracle.session
    let updated : SnooDevice := ⟨some dj, cfg, ses, some now⟩
    (updateAssoc devices sn updated,
     acc.2 ++ [.configFetch sn, .sessionFetch])

/-- API._get_device_details (api.py lines 438-496): fetch the device list,
then run the loop body over its entries. -/
def get_device_details (st : RegistryState) (oracle : RegistryOracle)
    (now : Int) : RegistryState × List RegistryOp :=
  match oracle.devicesResp with
  | none => (st, [.deviceListFetch])
  | some l =>
    let (devices, ops) := l.foldl (deviceLoopBody oracle now) (st.devices, [])
    ({ st with devices := devices }, [.deviceListFetch] ++ ops)

/-- API.update_device_info (api.py lines 712-746), inside the _update lock.
call_dt is datetime.now(UTC) at entry (line 717), endDt the datetime.now(UTC)
taken at line 746 after the full refresh.  Inside the throttle window only
the account session is re-fetched and attached to every known device and the
function returns with last_state_update untouched; otherwise account and baby
are fetched if absent, the device details are refreshed in full and
last_state_update is advanced. -/
def update_device_info (st : RegistryState) (oracle : RegistryOracle)
    (call_dt endDt : Int) : RegistryState × List RegistryOp :=
  let lsu :=
    match st.last_state_update with
    | none => call_dt - DEFAULT_DEVICE_UPDATE_INTERVAL
    | some t => t
  let st := { st with last_state_update := some lsu }
  let next_available_call_dt := lsu + DEFAULT_DEVICE_UPDATE_INTERVAL
  if call_dt < next_available_call_dt then
    let devices := st.devices.map (fun kv => (kv.1, { kv.2 with session := oracle.session }))
    let ops := st.devices.map (fun _ => RegistryOp.sessionFetch)
    ({ st with devices := devices }, ops)
  else
    let (st, ops1) :=
      match st.account with
      | none => ({ st with account := oracle.account }, [RegistryOp.accountFetch])
      | some _ => (st, [])
    let (st, ops2) :=
      match st.baby with
      | none => ({ st with baby := oracle.baby }, [RegistryOp.babyFetch])
      | some _ => (st, [])
    let (st, ops3) := get_device_details st oracle endDt
    ({ st with last_state_update := some endDt }, ops1 ++ ops2 ++ ops3)

/-! ## Theorems -/

/-- One retryable failure makes the loop continue with the exception captured
and, except before the first attempt, a backoff sleep of min(2 ^ attempt, 5)
seconds appended. -/
theorem send_retry_step (oracle : Nat → NetResult) (rem attempt : Nat)
    (respExc : Option TransportExc) (waits : List Nat)
    (hr : retryable (oracle (attempt + 1)) = true) :
    send_request_aux oracle (rem + 1) attempt respExc waits =
      send_request_aux oracle rem (attempt + 1) (capturedExc (oracle (attempt + 1)))
        (if attempt ≠ 0 then waits ++ [min (2 ^ attempt) 5] else waits) := by
  rcases h : oracle (attempt + 1) with v | ⟨s, m⟩ | m
  · rw [h] at hr; simp [retryable] at hr
  · rw [h] at hr
    simp only [retryable, decide_eq_true_eq] at hr
    simp [send_request_aux, h, capturedExc, hr]
  · simp [send_request_aux, h, capturedExc]

/-- Claim C4 (amended): for every send through Transport, a failed attempt is
retried on network errors and non-401 HTTP errors up to a total of 5
attempts, with a wait of min(2 ^ attempt, 5) seconds between consecutive
attempts (attempt counted from 1), giving the sequence 2s, 4s, 5s, 5s — four
waits separating the five attempts; an HTTP 401 is never retried at this
layer and is re-raised immediately; when all attempts are exhausted, the last
captured exception is re-raised, or a generic Request error is raised if no
exception was captured. -/
theorem transport_retry_and_backoff :
    (∀ (oracle : Nat → NetResult) rem attempt respExc waits,
        retryable (oracle (attempt + 1)) = true →
        send_request_aux oracle (rem + 1) attempt respExc waits =
          send_request_aux oracle rem (attempt + 1)
            (capturedExc (oracle (attempt + 1)))
            (if attempt ≠ 0 then waits ++ [min (2 ^ attempt) 5] else waits)) ∧
    (∀ (oracle : Nat → NetResult) rem attempt respExc waits m,
        oracle (attempt + 1) = .httpErr 401 m →
        send_request_aux oracle (rem + 1) attempt respExc waits =
          ⟨.error (.http 401 m),
           if attempt ≠ 0 then waits ++ [min (2 ^ attempt) 5] else waits,
           attempt + 1⟩) ∧
    (∀ oracle : Nat → NetResult,
        (∀ k, 1 ≤ k → k ≤ 5 → retryable (oracle k) = true) →
        ∃ e, capturedExc (oracle 5) = some e ∧
          send_request oracle = ⟨.error e, [2, 4, 5, 5], 5⟩) ∧
    (∀ (oracle : Nat → NetResult) attempt waits,
        send_request_aux oracle 0 attempt none waits =
          ⟨.error (.requestError "All request attempts failed"), waits, attempt⟩) := by
  refine ⟨send_retry_step, ?_, ?_, ?_⟩
  · intro oracle rem attempt respExc waits m h
    simp [send_request_aux, h]
  · intro oracle h
    have h5 := h 5 (by norm_num) (by norm_num)
    obtain ⟨e, he⟩ : ∃ e, capturedExc (oracle 5) = some e := by
      rcases h5' : oracle 5 with v | ⟨s, m⟩ | m
      · rw [h5'] at h5; simp [retryable] at h5
      · exact ⟨_, rfl⟩
      · exact ⟨_, rfl⟩
    refine ⟨e, he, ?_⟩
    rw [send_request]
    show send_request_aux oracle 5 0 none [] = _
    rw [send_retry_step oracle 4 0 none [] (h 1 (by norm_num) (by norm_num))]
    rw [send_retry_step oracle 3 1 _ _ (h 2 (by norm_num) (by norm_num))]
    rw [send_retry_step oracle 2 2 _ _ (h 3 (by norm_num) (by norm_num))]
    rw [send_retry_step oracle 1 3 _ _ (h 4 (by norm_num) (by norm_num))]
    rw [send_retry_step oracle 0 4 _ _ (h 5 (by norm_num) (by norm_num))]
    rw [he]
    norm_num [send_request_aux]
  · intro oracle attempt waits
    simp [send_request_aux]

/-- Witness for C4: a network that fails with a ClientError on every attempt
exhausts the 5 attempts, sleeps 2, 4, 5 and 5 seconds between them, and
re-raises the captured exception. -/
theorem transport_retry_and_backoff_witness :
    ∃ e, capturedExc ((fun _ => NetResult.netErr "boom") 5) = some e ∧
      send_request (fun _ => NetResult.netErr "boom") =
        ⟨.error e, [2, 4, 5, 5], 5⟩ :=
  transport_retry_and_backoff.2.2.1 (fun _ => NetResult.netErr "boom")
    (fun _ _ _ => rfl)

/-- Counterexample for C4 as stated: on a send whose five attempts all fail
with a network error, the waits between consecutive attempts are
2s, 4s, 5s, 5s — there are only four of them, not the claimed five-element
sequence 2s, 4s, 5s, 5s, 5s. -/
theorem transport_backoff_counterexample :
    (send_request (fun _ => NetResult.netErr "boom")).waits = [2, 4, 5, 5] ∧
    (send_request (fun _ => NetResult.netErr "boom")).waits ≠ [2, 4, 5, 5, 5] := by
  constructor <;> decide

/-- Claim C6: a call to update_journal_entry whose updates payload is missing
any of the fields type, startTime, babyId, userId or data fails with a Value
error before any network request is made; a payload containing all five
fields is sent unchanged as the PUT body. -/
theorem update_journal_entry_requires_complete :
    ∀ (eid : String) (updates : List (String × JVal)) (oracle : Option JVal),
    ((∃ f ∈ required_fields, hasField updates f = false) →
      update_journal_entry eid updates oracle =
        (.error (.valueError
          "Partial updates not supported yet. Please provide a complete journal entry object"),
         [])) ∧
    (is_complete updates = true →
      update_journal_entry eid updates oracle = (.ok oracle, [.put eid updates])) := by
  intro eid updates oracle
  constructor
  · rintro ⟨f, hf, hff⟩
    have hic : is_complete updates = false := by
      rcases hcc : is_complete updates
      · rfl
      · exfalso
        have hall := List.all_eq_true.mp hcc f hf
        rw [hff] at hall
        exact Bool.false_ne_true hall
    simp [update_journal_entry, hic]
  · intro h
    simp [update_journal_entry, h]

/-- Witness for C6: a payload carrying type, startTime, babyId and data but
no userId is rejected with the Value error and produces no network
operation. -/
theorem update_journal_entry_requires_complete_witness :
    update_journal_entry "entry1"
      [("type", JVal.str "diaper"), ("startTime", JVal.str "2024-01-01T10:00:00Z"),
       ("babyId", JVal.str "b1"), ("data", JVal.obj [])] none =
      (.error (.valueError
        "Partial updates not supported yet. Please provide a complete journal entry object"),
       []) :=
  (update_journal_entry_requires_complete "entry1"
      [("type", JVal.str "diaper"), ("startTime", JVal.str "2024-01-01T10:00:00Z"),
       ("babyId", JVal.str "b1"), ("data", JVal.obj [])] none).1
    ⟨"userId", by decide, by decide⟩

/-- The core round-trip fact behind the dual-unit conversions: for a factor
c > 1, converting a 2-decimal value from the small unit to the large-factor
unit (multiply by c, round to 2 decimals) and back (divide by c, round to 2
decimals) recovers the value exactly, because the rounding error shrinks by c
when divided back. -/
theorem round2_roundtrip (c : ℚ) (hc : 1 < c) (k : ℤ) :
    round2 (round2 ((k : ℚ) / 100 * c) / c) = (k : ℚ) / 100 := by
  have hc0 : (0 : ℚ) < c := lt_trans one_pos hc
  have hcne : c ≠ 0 := ne_of_gt hc0
  set n : ℤ := round ((k : ℚ) / 100 * c * 100) with hn
  have h1 : |(k : ℚ) / 100 * c * 100 - n| ≤ 1 / 2 := abs_sub_round _
  have hx : round2 ((k : ℚ) / 100 * c) = (n : ℚ) / 100 := by
    rw [round2, hn]
  rw [hx]
  have h2 : (n : ℚ) / 100 / c * 100 = (n : ℚ) / c := by
    field_simp
    ring
  rw [round2, h2]
  have hδ : (n : ℚ) / c = (k : ℚ) + ((n : ℚ) - (k : ℚ) / 100 * c * 100) / c := by
    field_simp
  have hδlt : |((n : ℚ) - (k : ℚ) / 100 * c * 100) / c| < 1 / 2 := by
    rw [abs_div, abs_of_pos hc0]
    have h1' : |(n : ℚ) - (k : ℚ) / 100 * c * 100| ≤ 1 / 2 := by
      rw [abs_sub_comm]; exact h1
    calc |(n : ℚ) - (k : ℚ) / 100 * c * 100| / c ≤ 1 / 2 / c :=
          div_le_div_iff_of_pos_right hc0 |>.mpr h1'
      _ < 1 / 2 := div_lt_self (by norm_num) hc
  rw [hδ, round_int_add]
  have h0 : round (((n : ℚ) - (k : ℚ) / 100 * c * 100) / c) = 0 := by
    rw [round_eq_zero_iff]
    refine Set.mem_Ico.mpr ⟨?_, (abs_lt.mp hδlt).2⟩
    linarith [(abs_lt.mp hδlt).1]
  rw [h0]
  push_cast
  ring

/-- Claim C7 (amended): each dual-unit journal field computes the missing
unit by the fixed constant (ounces to ml times 29.5735, oz to g times
28.3495, inches to cm times 2.54) rounded to 2 decimal places, in both
directions.  Converting a 2-decimal imperial value to metric and back
recovers it exactly (in particular 4.5 oz becomes 133.08 ml and 133.08 ml
becomes 4.5 oz); the opposite round trip, metric to imperial to metric, can
drift beyond the 2-decimal rounding tolerance because the factor magnifies
the rounding error (see the counterexample). -/
theorem journal_unit_roundtrip :
    (∀ k : ℤ, amountImperialOfMetric (amountMetricOfImperial ((k : ℚ) / 100)) =
      (k : ℚ) / 100) ∧
    (∀ k : ℤ, weightImperialOfMetric (weightMetricOfImperial ((k : ℚ) / 100)) =
      (k : ℚ) / 100) ∧
    (∀ k : ℤ, heightImperialOfMetric (heightMetricOfImperial ((k : ℚ) / 100)) =
      (k : ℚ) / 100) ∧
    amountMetricOfImperial 4.5 = 133.08 ∧ amountImperialOfMetric 133.08 = 4.5 := by
  refine ⟨fun k => round2_roundtrip 29.5735 (by norm_num) k,
          fun k => round2_roundtrip 28.3495 (by norm_num) k,
          fun k => round2_roundtrip 2.54 (by norm_num) k, ?_, ?_⟩ <;>
    norm_num [amountMetricOfImperial, amountImperialOfMetric, round2, round_eq]

/-- Counterexample for C7 as stated: 100 ml converts to 3.38 oz, which
converts back to 99.96 ml — off by 0.04, more than the 2-decimal rounding
tolerance, so the round trip does not recover the original value in the
metric-to-imperial-to-metric direction. -/
theorem journal_unit_roundtrip_counterexample :
    amountImperialOfMetric 100 = 3.38 ∧
    amountMetricOfImperial (amountImperialOfMetric 100) = 99.96 ∧
    ¬ |(100 : ℚ) - 99.96| ≤ 5 / 1000 := by
  refine ⟨?_, ?_, ?_⟩
  · norm_num [amountImperialOfMetric, round2, round_eq]
  · norm_num [amountMetricOfImperial, amountImperialOfMetric, round2, round_eq]
  · rw [show ((100 : ℚ) - 99.96) = 0.04 by norm_num, abs_of_pos (by norm_num)]
    norm_num

/-- Claim C1 (divergence witness): a request dispatched with a valid token
that receives a 401 clears the token fields of the credential (retaining the
last-refreshed timestamp), performs a blocking re-authentication and retries
exactly once; the retry surfaces the successful result and the stored
credential holds the new token — but the Authorization header of the retry
still carries the OLD token: api.py sets headers at line 180 and never
refreshes the dict after the re-authentication of line 203, so the retry of
line 215 is sent with the stale value, contradicting the claim that the
retry carries the newly obtained token. -/
theorem request_401_retry_uses_stale_header :
    API.request
      ⟨some "u", some "p", false, none,
       ⟨some "Bearer old", some "r0", some 1000, some 500⟩⟩
      100 ⟨200, true, some "newid", some "r1", some 3600, some "Bearer"⟩
      (.error (.requestError "unused")) (.httpErr 401 "Unauthorized") (.ok 7) =
      (.ok 7,
       ⟨some "u", some "p", false, none,
        ⟨some "Bearer newid", some "r1", some 1900, some 100⟩⟩,
       [.dispatch (some "Bearer old"), .cognitoCall, .dispatch (some "Bearer old")]) ∧
    clearTokens
      ⟨some "u", some "p", false, none,
       ⟨some "Bearer old", some "r0", some 1000, some 500⟩⟩ =
      ⟨some "u", some "p", false, none, ⟨none, none, none, some 500⟩⟩ ∧
    some "Bearer old" ≠ some "Bearer newid" := by
  refine ⟨rfl, rfl, by decide⟩

/-- Claim C2 (divergence witness): API._authenticate stores the fresh-login
result wholesale (second conjunct), but on the refresh-exchange path — stored
expiry 50 in the past of now = 100, refresh token present, exchange
successful — it returns at api.py line 315 WITHOUT storing, leaving the
stored credential byte-for-byte unchanged (first conjunct), contradicting
the claim that the credential is replaced on that path too. -/
theorem auth_refresh_path_discards_new_token :
    API.auth_inner
      ⟨some "u", some "p", false, none,
       ⟨some "Bearer old", some "r0", some 50, some 10⟩⟩
      100 ⟨200, true, some "newid", some "r1", some 3600, some "Bearer"⟩
      (.ok ⟨some "Bearer", some "newacc", some "r2", some 10000, false⟩) =
      (.ok ⟨some "u", some "p", false, none,
            ⟨some "Bearer old", some "r0", some 50, some 10⟩⟩,
       [.refreshCall]) ∧
    API.auth_inner
      ⟨some "u", some "p", false, none,
       ⟨some "Bearer old", some "r0", some 200, some 10⟩⟩
      100 ⟨200, true, some "newid", some "r1", some 3600, some "Bearer"⟩
      (.ok ⟨some "Bearer", some "newacc", some "r2", some 10000, false⟩) =
      (.ok ⟨some "u", some "p", false, none,
            ⟨some "Bearer newid", some "r1", some 1900, some 100⟩⟩,
       [.cognitoCall]) := by
  constructor <;> rfl

/-- Claim C8: after every successful fresh login, the locally recorded
expiry is set to now plus half the provider-declared lifetime in seconds
(ExpiresIn divided by two, integer division), and the last-refresh timestamp
to now; token and refresh token are stored wholesale. -/
theorem fresh_login_expiry_is_half_lifetime (st : ApiState) (now : Int)
    (cog : CognitoResponse) (refresh : Except SnooError RefreshResponse)
    (tid : String) (e : Nat)
    (hpath : tokenExpired st.security_token now = false)
    (hs : cog.status = 200) (har : cog.hasAuthenticationResult = true)
    (hid : cog.idToken = some tid) (hexp : cog.expiresIn = some e) :
    API.auth_inner st now cog refresh =
      (.ok { st with security_token :=
          ⟨some (cog.tokenType.getD "Bearer" ++ " " ++ tid), cog.refreshToken,
           some (now + ((e / 2 : Nat) : Int)), some now⟩ },
       [.cognitoCall]) := by
  simp [API.auth_inner, hpath, api_authenticate, hs, har, hid, hexp]

/-- Witness for C8: a fresh login at now = 1000 with ExpiresIn 3600 records
the expiry 1000 + 1800. -/
theorem fresh_login_expiry_is_half_lifetime_witness :
    API.auth_inner (API.init "u" "p") 1000
      ⟨200, true, some "tid", some "r", some 3600, some "Bearer"⟩
      (.error (.requestError "x")) =
      (.ok { API.init "u" "p" with security_token :=
          ⟨some ((some "Bearer").getD "Bearer" ++ " " ++ "tid"), some "r",
           some ((1000 : Int) + ((3600 / 2 : Nat) : Int)), some 1000⟩ },
       [.cognitoCall]) :=
  fresh_login_expiry_is_half_lifetime (API.init "u" "p") 1000
    ⟨200, true, some "tid", some "r", some 3600, some "Bearer"⟩
    (.error (.requestError "x")) "tid" 3600 rfl rfl rfl rfl rfl

/-- Claim C9: every call to authenticate with a missing username or
password, or with the credentials previously marked invalid, fails
immediately with an InvalidCredentials error, leaves the state unchanged and
performs no network call (empty trace). -/
theorem authenticate_requires_credentials (wait : Bool) (st : ApiState)
    (now : Int) (cog : CognitoResponse)
    (refresh : Except SnooError RefreshResponse)
    (h : st.username = none ∨ st.password = none ∨ st.invalid_credentials = true) :
    ∃ m, API.authenticate wait st now cog refresh =
      (.error (.invalidCredentialsError m), st, []) := by
  by_cases h1 : st.username = none ∨ st.password = none
  · exact ⟨noCredsMsg, by simp [API.authenticate, h1]⟩
  · have h2 : st.invalid_credentials = true := by tauto
    exact ⟨invalidCredsMsg, by simp [API.authenticate, h1, h2]⟩

/-- Witness for C9: authenticate on a state with no username fails with the
InvalidCredentials error and an empty network trace. -/
theorem authenticate_requires_credentials_witness :
    ∃ m, API.authenticate true
      ⟨none, some "p", false, none, ⟨none, none, none, none⟩⟩ 0
      ⟨200, true, some "t", none, none, none⟩ (.error (.requestError "x")) =
      (.error (.invalidCredentialsError m),
       ⟨none, some "p", false, none, ⟨none, none, none, none⟩⟩, []) :=
  authenticate_requires_credentials true
    ⟨none, some "p", false, none, ⟨none, none, none, none⟩⟩ 0
    ⟨200, true, some "t", none, none, none⟩ (.error (.requestError "x"))
    (Or.inl rfl)

/-- The invalid-credentials flag stays false under every sequence of API
mutations: the initializer writes false and the only assignments in the
source — the username and password setters — write false again. -/
theorem invalidFlagAfter_eq_false (ops : List ApiOp) : invalidFlagAfter ops = false := by
  induction ops with
  | nil => rfl
  | cons op rest ih =>
    have hop : applyInvalidFlag false op = false := by cases op <;> rfl
    simpa [invalidFlagAfter, List.foldl, hop] using ih

/-- Claim C10: no operation of the API ever sets the invalid-credentials
flag: after any sequence of mutations from a freshly constructed client the
flag is false, and authenticate on such a state never fails with the
credentials-previously-marked-invalid branch (its error message
invalidCredsMsg cannot be produced). -/
theorem invalid_credentials_branch_unreachable (ops : List ApiOp)
    (st : ApiState) (wait : Bool) (now : Int) (cog : CognitoResponse)
    (refresh : Except SnooError RefreshResponse)
    (h : st.invalid_credentials = invalidFlagAfter ops) :
    st.invalid_credentials = false ∧
    (API.authenticate wait st now cog refresh).1 ≠
      .error (.invalidCredentialsError invalidCredsMsg) := by
  have hf : st.invalid_credentials = false := h.trans (invalidFlagAfter_eq_false ops)
  refine ⟨hf, ?_⟩
  unfold API.authenticate
  by_cases h1 : st.username = none ∨ st.password = none
  · simp only [h1, if_true]
    intro hcontra
    injection hcontra with h4
    injection h4 with h5
    exact absurd h5 (by decide)
  · rw [if_neg h1, hf, if_neg (by simp)]
    rcases ht : st.authentication_task with _ | r
    · rcases ha : API.auth_inner st now cog refresh with ⟨res, tr⟩
      rcases res with e | st1
      · cases wait <;> simp [ha]
      · cases wait <;> simp [ha]
    · rcases r with e | v
      · cases wait <;> simp
      · cases wait <;> simp

/-- Witness for C10: the freshly constructed client (empty mutation history)
has the flag false and its authenticate call cannot produce the
invalid-credentials-branch error. -/
theorem invalid_credentials_branch_unreachable_witness :
    (API.init "u" "p").invalid_credentials = false ∧
    (API.authenticate true (API.init "u" "p") 0
        ⟨200, true, some "t", none, none, none⟩ (.error (.requestError "x"))).1 ≠
      .error (.invalidCredentialsError invalidCredsMsg) :=
  invalid_credentials_branch_unreachable [] (API.init "u" "p") true 0
    ⟨200, true, some "t", none, none, none⟩ (.error (.requestError "x")) rfl

/-- Every successor of a configuration of raceClosure is again in
raceClosure: the breadth-first expansion has reached a fixpoint. -/
theorem race_closure_closed :
    ∀ x ∈ raceClosure, ∀ y ∈ raceSuccs x, y ∈ raceClosure := by decide

/-- Every reachable configuration of the two-caller model lies in the
computed closure. -/
theorem race_reachable_mem (c : RaceConfig) (h : RaceReachable c) :
    c ∈ raceClosure := by
  induction h with
  | init => decide
  | step hr hmem ih => exact race_closure_closed _ ih _ hmem

/-- Claim C3: when two callers concurrently invoke the request gateway while
no bearer token exists, under every interleaving of the cooperative
scheduler at most one authentication network call has been made at any
reachable point (at most one authentication task ever starts — late callers
await the task in the single slot instead of starting another), and every
completed execution has made exactly one. -/
theorem race_single_authentication (c : RaceConfig) (h : RaceReachable c) :
    c.authCalls ≤ 1 ∧ ((c.pcA = 4 ∧ c.pcB = 4) → c.authCalls = 1) := by
  have hm := race_reachable_mem c h
  have hall : ∀ x ∈ raceClosure,
      x.authCalls ≤ 1 ∧ ((x.pcA = 4 ∧ x.pcB = 4) → x.authCalls = 1) := by decide
  exact hall c hm

/-- Witness for C3: the terminal configuration of the canonical execution
(caller A authenticates and dispatches, then caller B reuses the fresh
token) is reachable and carries exactly one authentication call. -/
theorem race_single_authentication_witness :
    (⟨none, false, false, true, 1, 4, 4⟩ : RaceConfig).authCalls ≤ 1 ∧
    (((⟨none, false, false, true, 1, 4, 4⟩ : RaceConfig).pcA = 4 ∧
      (⟨none, false, false, true, 1, 4, 4⟩ : RaceConfig).pcB = 4) →
      (⟨none, false, false, true, 1, 4, 4⟩ : RaceConfig).authCalls = 1) := by
  apply race_single_authentication
  have h1 : RaceReachable (⟨some 0, true, false, false, 0, 2, 0⟩ : RaceConfig) :=
    .step .init (by decide)
  have h2 : RaceReachable (⟨some 0, true, true, true, 1, 2, 0⟩ : RaceConfig) :=
    .step h1 (by decide)
  have h3 : RaceReachable (⟨some 0, false, false, true, 1, 3, 0⟩ : RaceConfig) :=
    .step h2 (by decide)
  have h4 : RaceReachable (⟨none, false, false, true, 1, 4, 0⟩ : RaceConfig) :=
    .step h3 (by decide)
  have h5 : RaceReachable (⟨some 1, false, false, true, 1, 4, 3⟩ : RaceConfig) :=
    .step h4 (by decide)
  exact .step h5 (by decide)

/-- Claim C5: a device-registry refresh within 120 seconds of the last full
refresh only re-fetches the latest session blob and attaches it to every
known device (every network operation of the call is a session fetch — no
device-list and no per-device config fetch) and leaves the last-full-update
timestamp unchanged; a call after the 120-second window performs a full
refresh (the device list is fetched) and advances the timestamp. -/
theorem update_device_info_throttle (st : RegistryState)
    (oracle : RegistryOracle) (call_dt endDt t : Int)
    (h : st.last_state_update = some t) :
    (call_dt < t + DEFAULT_DEVICE_UPDATE_INTERVAL →
      update_device_info st oracle call_dt endDt =
        ({ st with devices :=
             st.devices.map (fun kv => (kv.1, { kv.2 with session := oracle.session })) },
         st.devices.map (fun _ => RegistryOp.sessionFetch)) ∧
      (∀ op ∈ (update_device_info st oracle call_dt endDt).2,
        op = RegistryOp.sessionFetch) ∧
      (update_device_info st oracle call_dt endDt).1.last_state_update = some t) ∧
    (t + DEFAULT_DEVICE_UPDATE_INTERVAL ≤ call_dt →
      (update_device_info st oracle call_dt endDt).1.last_state_update = some endDt ∧
      RegistryOp.deviceListFetch ∈ (update_device_info st oracle call_dt endDt).2) := by
  constructor
  · intro hlt
    have heq : update_device_info st oracle call_dt endDt =
        ({ st with devices :=
             st.devices.map (fun kv => (kv.1, { kv.2 with session := oracle.session })) },
         st.devices.map (fun _ => RegistryOp.sessionFetch)) := by
      simp [update_device_info, h, hlt]
    refine ⟨heq, ?_, ?_⟩
    · rw [heq]
      simp
    · rw [heq]
      exact h
  · intro hge
    have hnlt : ¬ call_dt < t + DEFAULT_DEVICE_UPDATE_INTERVAL := not_lt.mpr hge
    rcases ha : st.account with _ | a <;> rcases hb : st.baby with _ | b <;>
      rcases hd : oracle.devicesResp with _ | l <;>
        simp [update_device_info, get_device_details, h, hnlt, ha, hb, hd]

/-- Witness for C5: a refresh at 100 seconds after a full refresh at 0 (the
throttle window is 120s) re-fetches only the session blob, attaches it to
the single known device and leaves the timestamp at 0. -/
theorem update_device_info_throttle_witness :
    update_device_info
        ⟨some 1, some 2, [("sn1", ⟨some ⟨some "sn1", 0⟩, some 5, some 6, some 7⟩)], some 0⟩
        ⟨some 1, some 2, some [⟨some "sn1", 0⟩], fun _ => some 9, some 42⟩ 100 200 =
      (⟨some 1, some 2, [("sn1", ⟨some ⟨some "sn1", 0⟩, some 5, some 42, some 7⟩)], some 0⟩,
       [RegistryOp.sessionFetch]) :=
  ((update_device_info_throttle
      ⟨some 1, some 2, [("sn1", ⟨some ⟨some "sn1", 0⟩, some 5, some 6, some 7⟩)], some 0⟩
      ⟨some 1, some 2, some [⟨some "sn1", 0⟩], fun _ => some 9, some 42⟩
      100 200 0 rfl).1 (by decide)).1
